import Mathlib

/-!
Verification of the commission engine of the `in2commission` repository.

The definitions below are a shallow embedding of the TypeScript sources:
  * `src/src/lib/commissionEngine.ts`                      (the library engine)
  * `src/supabase/functions/calculate-commission/index.ts` (the edge-function engine
    and its `getISOWeek` helper)
Monetary and percentage values (`number` in TS) are modelled as `ℚ`;
JavaScript `undefined`-able fields are modelled as `Option`.
-/

/-! ### String helpers

JavaScript `String.prototype.includes` on lower-cased strings is modelled by an
executable substring test over the character list of `lowerStr s`. -/

/-- Model of JavaScript `toLowerCase` as a character-wise lowering of the
string's character list (all strings involved are ASCII). -/
def lowerStr (s : String) : String := String.mk (s.data.map Char.toLower)

/-- Boolean test that `p` is an initial segment of `s`. -/
def startsWithChars : List Char → List Char → Bool
  | [], _ => true
  | _ :: _, [] => false
  | a :: as, b :: bs => a == b && startsWithChars as bs

/-- Boolean test that `p` occurs contiguously inside `s`. -/
def containsChars (p : List Char) : List Char → Bool
  | [] => p.isEmpty
  | c :: rest => startsWithChars p (c :: rest) || containsChars p rest

/-- Model of `s.toLowerCase().includes(pat)` for an already lower-case literal `pat`. -/
def strContainsLower (s pat : String) : Bool :=
  containsChars pat.data (lowerStr s).data

/-! ### Dates and ISO week numbers

A meeting timestamp is used by the engine only through
`getISOWeek(new Date(meeting.timestamp))`; we therefore model a timestamp as the
civil date it denotes.  `getISOWeek` is translated from the helper at the bottom
of `supabase/functions/calculate-commission/index.ts` (the library engine's
`date-fns` import computes the same ISO-8601 week number).  Day arithmetic uses
the standard civil-calendar/day-number conversion. -/

structure CivilDate where
  year : Int
  month : Int
  day : Int
deriving DecidableEq

/-- Days since 1970-01-01 of a civil date (proleptic Gregorian calendar). -/
def daysFromCivil (y0 m d : Int) : Int :=
  let y := if m ≤ 2 then y0 - 1 else y0
  let era := Int.fdiv y 400
  let yoe := y - era * 400
  let mp := if m > 2 then m - 3 else m + 9
  let doy := Int.fdiv (153 * mp + 2) 5 + d - 1
  let doe := yoe * 365 + Int.fdiv yoe 4 - Int.fdiv yoe 100 + doy
  era * 146097 + doe - 719468

/-- The civil year containing day number `z0` (days since 1970-01-01). -/
def yearOfDays (z0 : Int) : Int :=
  let z := z0 + 719468
  let era := Int.fdiv z 146097
  let doe := z - era * 146097
  let yoe := Int.fdiv (doe - Int.fdiv doe 1460 + Int.fdiv doe 36524 - Int.fdiv doe 146096) 365
  let y := yoe + era * 400
  let doy := doe - (365 * yoe + Int.fdiv yoe 4 - Int.fdiv yoe 100)
  let mp := Int.fdiv (5 * doy + 2) 153
  let m := mp + (if mp < 10 then 3 else -9)
  if m ≤ 2 then y + 1 else y

/-- Translation of `getISOWeek` from
`supabase/functions/calculate-commission/index.ts`: move to the Thursday of the
date's week (JS `getUTCDay() || 7`), then count weeks from January 1 of the
Thursday's year, rounding up. -/
def getISOWeek (dt : CivilDate) : Nat :=
  let days := daysFromCivil dt.year dt.month dt.day
  let dow := (days + 4) % 7
  let dayNum := if dow == 0 then 7 else dow
  let thuDays := days + 4 - dayNum
  let yearStart := daysFromCivil (yearOfDays thuDays) 1 1
  (Int.fdiv ((thuDays - yearStart + 1) + 6) 7).toNat

/-! ### Data model (`src/src/lib/commissionEngine.ts`, lines 3-42) -/

structure AeBracket where
  min : ℚ
  max : Option ℚ
  percent : ℚ
deriving DecidableEq

structure TermBonus where
  term : String
  bonus_percent : ℚ
deriving DecidableEq

structure MultBracket where
  min : ℚ
  max : Option ℚ
  multiplier : ℚ
deriving DecidableEq

structure MeetingTier where
  min : ℚ
  max : Option ℚ
  rate_per_meeting : ℚ
deriving DecidableEq

structure CommissionSettings where
  ae_brackets : List AeBracket
  ae_payment_term_bonuses : List TermBonus
  ae_revenue_multiplier_brackets : List MultBracket
  sdr_meeting_tiers : List MeetingTier
  sdr_closed_won_percent : ℚ
  sdr_revenue_multiplier_brackets : List MultBracket
  marketing_same_as_sdr : Bool
  marketing_inbound_percent : ℚ
  marketing_revenue_multiplier_brackets : List MultBracket
deriving DecidableEq

structure Deal where
  amount : ℚ
  closedate : String
  dealstage : String
  hubspot_owner_id : String
  deal_channel : Option String
  payment_terms : Option String
deriving DecidableEq

structure Meeting where
  timestamp : CivilDate
deriving DecidableEq

inductive Team where
  | AE : Team
  | SDR : Team
  | Marketing : Team
deriving DecidableEq

structure WeekEntry where
  week : Nat
  meetings : Nat
  bonus : ℚ
deriving DecidableEq

structure UsedTermBonus where
  term : String
  amount : ℚ
deriving DecidableEq

structure CommissionResult where
  repId : String
  repName : String
  team : Team
  periodStart : String
  periodEnd : String
  totalRevenue : ℚ
  totalCommission : ℚ
  dealCommission : ℚ
  meetingBonus : ℚ
  totalMeetings : Nat
  weeklyBreakdown : List WeekEntry
  usedBracketPercent : Option ℚ
  usedPaymentTermBonuses : List UsedTermBonus
deriving DecidableEq

/-! ### Engine building blocks (`commissionEngine.ts`, lines 61-172) -/

/-- Line 61-64: `d.dealstage?.toLowerCase().includes('closed') && ...includes('won')`. -/
def isClosedWon (d : Deal) : Bool :=
  strContainsLower d.dealstage "closed" && strContainsLower d.dealstage "won"

/-- Line 66: `closedWonDeals.reduce((sum, deal) => sum + (deal.amount || 0), 0)`. -/
def totalRevenueOf (deals : List Deal) : ℚ :=
  ((deals.filter isClosedWon).map (·.amount)).sum

/-- The half-open bracket test `totalRevenue >= b.min && (b.max === null || totalRevenue < b.max)`
used on lines 71-72 (and identically for SDR and Marketing tables). -/
def multMatch (r : ℚ) (b : MultBracket) : Bool :=
  decide (b.min ≤ r) && (match b.max with | none => true | some mx => decide (r < mx))

/-- Lines 69-91: first matching multiplier bracket scales the revenue, otherwise
the revenue is unchanged. -/
def adjustRevenue (table : List MultBracket) (r : ℚ) : ℚ :=
  match table.find? (multMatch r) with
  | some b => r * b.multiplier
  | none => r

/-- Which multiplier table lines 70/77/84 select for each team. -/
def multTableFor : Team → CommissionSettings → List MultBracket
  | Team.AE, s => s.ae_revenue_multiplier_brackets
  | Team.SDR, s => s.sdr_revenue_multiplier_brackets
  | Team.Marketing, s => s.marketing_revenue_multiplier_brackets

/-- The `adjustedRevenue` local of lines 69-91. -/
def adjustedRevenueOf (team : Team) (deals : List Deal) (s : CommissionSettings) : ℚ :=
  adjustRevenue (multTableFor team s) (totalRevenueOf deals)

/-- Line 95-97: `adjustedRevenue >= b.min && (b.max === null || adjustedRevenue < b.max)`. -/
def aeMatch (r : ℚ) (b : AeBracket) : Bool :=
  decide (b.min ≤ r) && (match b.max with | none => true | some mx => decide (r < mx))

/-- Lines 99-102: the bracket-derived part of the AE deal commission. -/
def aeBracketPart (bs : List AeBracket) (r : ℚ) : ℚ :=
  match bs.find? (aeMatch r) with
  | some b => r * (b.percent / 100)
  | none => 0

/-- Lines 99-102: `usedBracketPercent` is set exactly when a bracket is found. -/
def usedBracketPercentOf (bs : List AeBracket) (r : ℚ) : Option ℚ :=
  (bs.find? (aeMatch r)).map (·.percent)

/-- Lines 105-116: the payment-term bonus one closed-won deal contributes.
`if (deal.payment_terms)` skips `undefined` and the empty string. -/
def termBonusAmount (bonuses : List TermBonus) (d : Deal) : ℚ :=
  match d.payment_terms with
  | none => 0
  | some t =>
    if t = "" then 0
    else
      match bonuses.find? (fun b => lowerStr b.term == lowerStr t) with
      | some b => d.amount * (b.bonus_percent / 100)
      | none => 0

/-- Lines 105-116: the `usedPaymentTermBonuses` diagnostic entries, in deal order. -/
def usedTermBonusesOf (bonuses : List TermBonus) (ds : List Deal) : List UsedTermBonus :=
  ds.filterMap (fun d =>
    match d.payment_terms with
    | none => none
    | some t =>
      if t = "" then none
      else
        (bonuses.find? (fun b => lowerStr b.term == lowerStr t)).map
          (fun b => UsedTermBonus.mk b.term (d.amount * (b.bonus_percent / 100))))

/-- Line 125: the ISO week a meeting is bucketed under. -/
def weekOf (m : Meeting) : Nat := getISOWeek m.timestamp

/-- Lines 122-130: the distinct week numbers, in the ascending order in which
JavaScript enumerates the integer keys of `weeklyMeetings`. -/
def weekKeys (ms : List Meeting) : List Nat :=
  List.insertionSort (· ≤ ·) ((ms.map weekOf).dedup)

/-- Lines 122-134: each week key paired with that week's meeting count. -/
def weekBuckets (ms : List Meeting) : List (Nat × Nat) :=
  (weekKeys ms).map (fun w => (w, (ms.filter (fun m => weekOf m = w)).length))

/-- Line 135-136: the SDR tier test on a week's meeting count. -/
def tierMatch (c : Nat) (t : MeetingTier) : Bool :=
  decide (t.min ≤ (c : ℚ)) && (match t.max with | none => true | some mx => decide ((c : ℚ) < mx))

/-- Lines 135-146: the breakdown entry for one week bucket, when a tier matches;
line 139: `weekBonus = meetingCount * tier.rate_per_meeting`. -/
def weekEntry (tiers : List MeetingTier) (wc : Nat × Nat) : Option WeekEntry :=
  (tiers.find? (tierMatch wc.2)).map (fun t => WeekEntry.mk wc.1 wc.2 ((wc.2 : ℚ) * t.rate_per_meeting))

/-- Lines 133-147: weekly breakdown entries, one per bucket whose count matches a tier. -/
def weeklyBreakdownOf (tiers : List MeetingTier) (ms : List Meeting) : List WeekEntry :=
  (weekBuckets ms).filterMap (weekEntry tiers)

/-- Line 140: `meetingBonus += weekBonus` accumulates exactly the bonuses of the
entries pushed onto the breakdown. -/
def meetingBonusOf (tiers : List MeetingTier) (ms : List Meeting) : ℚ :=
  ((weeklyBreakdownOf tiers ms).map (·.bonus)).sum

/-- Lines 155-157: `d.deal_channel?.toLowerCase() === 'inbound'`. -/
def isInbound (d : Deal) : Bool :=
  match d.deal_channel with
  | none => false
  | some c => lowerStr c == "inbound"

/-- Line 158: the inbound closed-won revenue. -/
def inboundRevenueOf (deals : List Deal) : ℚ :=
  (((deals.filter isClosedWon).filter isInbound).map (·.amount)).sum

/-- Translation of `calculateCommission` (`commissionEngine.ts`, lines 44-191). -/
def calculateCommission (repId repName : String) (team : Team)
    (deals : List Deal) (meetings : List Meeting) (settings : CommissionSettings) :
    CommissionResult :=
  let adjustedRevenue := adjustedRevenueOf team deals settings
  match team with
  | Team.AE =>
    let closedWon := deals.filter isClosedWon
    let dealCommission :=
      aeBracketPart settings.ae_brackets adjustedRevenue
        + (closedWon.map (termBonusAmount settings.ae_payment_term_bonuses)).sum
    { repId := repId, repName := repName, team := team
      periodStart := "", periodEnd := ""
      totalRevenue := totalRevenueOf deals
      totalCommission := dealCommission + 0
      dealCommission := dealCommission
      meetingBonus := 0
      totalMeetings := meetings.length
      weeklyBreakdown := []
      usedBracketPercent := usedBracketPercentOf settings.ae_brackets adjustedRevenue
      usedPaymentTermBonuses := usedTermBonusesOf settings.ae_payment_term_bonuses closedWon }
  | Team.SDR =>
    let dealCommission := adjustedRevenue * (settings.sdr_closed_won_percent / 100)
    let meetingBonus := meetingBonusOf settings.sdr_meeting_tiers meetings
    { repId := repId, repName := repName, team := team
      periodStart := "", periodEnd := ""
      totalRevenue := totalRevenueOf deals
      totalCommission := dealCommission + meetingBonus
      dealCommission := dealCommission
      meetingBonus := meetingBonus
      totalMeetings := meetings.length
      weeklyBreakdown := weeklyBreakdownOf settings.sdr_meeting_tiers meetings
      usedBracketPercent := none
      usedPaymentTermBonuses := [] }
  | Team.Marketing =>
    if settings.marketing_same_as_sdr then
      let dealCommission := adjustedRevenue * (settings.sdr_closed_won_percent / 100)
      let meetingBonus := meetingBonusOf settings.sdr_meeting_tiers meetings
      { repId := repId, repName := repName, team := team
        periodStart := "", periodEnd := ""
        totalRevenue := totalRevenueOf deals
        totalCommission := dealCommission + meetingBonus
        dealCommission := dealCommission
        meetingBonus := meetingBonus
        totalMeetings := meetings.length
        weeklyBreakdown := weeklyBreakdownOf settings.sdr_meeting_tiers meetings
        usedBracketPercent := none
        usedPaymentTermBonuses := [] }
    else
      let dealCommission :=
        adjustRevenue settings.marketing_revenue_multiplier_brackets (inboundRevenueOf deals)
          * (settings.marketing_inbound_percent / 100)
      { repId := repId, repName := repName, team := team
        periodStart := "", periodEnd := ""
        totalRevenue := totalRevenueOf deals
        totalCommission := dealCommission + 0
        dealCommission := dealCommission
        meetingBonus := 0
        totalMeetings := meetings.length
        weeklyBreakdown := []
        usedBracketPercent := none
        usedPaymentTermBonuses := [] }

/-! ### Edge-function engine (`supabase/functions/calculate-commission/index.ts`,
lines 407-538)

This variant receives `team` as a free-form string and dispatches by the
case-insensitive containment tests of lines 454-457, while the revenue
multiplier step (lines 431-452) still compares `team` by exact equality.  Its
meeting tiers carry a flat `bonus_amount` (line 493) and its deals carry a
`channel` field (line 500). -/

structure EdgeMeetingTier where
  min : ℚ
  max : Option ℚ
  bonus_amount : ℚ
deriving DecidableEq

structure EdgeSettings where
  ae_brackets : List AeBracket
  ae_payment_term_bonuses : List TermBonus
  ae_revenue_multiplier_brackets : List MultBracket
  sdr_meeting_tiers : List EdgeMeetingTier
  sdr_closed_won_percent : ℚ
  sdr_revenue_multiplier_brackets : List MultBracket
  marketing_same_as_sdr : Bool
  marketing_inbound_percent : ℚ
  marketing_revenue_multiplier_brackets : List MultBracket
deriving DecidableEq

structure EdgeDeal where
  amount : ℚ
  closedate : String
  dealstage : String
  hubspot_owner_id : String
  channel : Option String
  payment_terms : Option String
deriving DecidableEq

structure EdgeResult where
  repId : String
  repName : String
  team : String
  periodStart : String
  periodEnd : String
  totalRevenue : ℚ
  totalCommission : ℚ
  dealCommission : ℚ
  meetingBonus : ℚ
  totalMeetings : Nat
  weeklyBreakdown : List WeekEntry
deriving DecidableEq

/-- Lines 422-425 of the edge engine: the same closed/won stage test. -/
def edgeIsClosedWon (d : EdgeDeal) : Bool :=
  strContainsLower d.dealstage "closed" && strContainsLower d.dealstage "won"

/-- Line 427: `closedWonDeals.reduce((sum, deal) => sum + deal.amount, 0)`. -/
def edgeTotalRevenueOf (deals : List EdgeDeal) : ℚ :=
  ((deals.filter edgeIsClosedWon).map (·.amount)).sum

/-- Lines 430-452: the multiplier step branches on exact equality of the team string. -/
def edgeAdjustedRevenue (team : String) (s : EdgeSettings) (r : ℚ) : ℚ :=
  if team = "AE" then adjustRevenue s.ae_revenue_multiplier_brackets r
  else if team = "SDR" then adjustRevenue s.sdr_revenue_multiplier_brackets r
  else if team = "Marketing" then adjustRevenue s.marketing_revenue_multiplier_brackets r
  else r

/-- Line 455: `teamLower.includes('ae')`. -/
def edgeIsAE (team : String) : Bool := strContainsLower team "ae"

/-- Line 456: `teamLower.includes('sdr')`. -/
def edgeIsSDR (team : String) : Bool := strContainsLower team "sdr"

/-- Line 457: `teamLower.includes('marketing')`. -/
def edgeIsMarketing (team : String) : Bool := strContainsLower team "marketing"

/-- Line 469-471 of the edge engine reuse the payment-term lookup of the library
engine on an `EdgeDeal`. -/
def edgeTermBonusAmount (bonuses : List TermBonus) (d : EdgeDeal) : ℚ :=
  match d.payment_terms with
  | none => 0
  | some t =>
    if t = "" then 0
    else
      match bonuses.find? (fun b => lowerStr b.term == lowerStr t) with
      | some b => d.amount * (b.bonus_percent / 100)
      | none => 0

/-- Line 489-490: the edge tier test on a week's meeting count. -/
def edgeTierMatch (c : Nat) (t : EdgeMeetingTier) : Bool :=
  decide (t.min ≤ (c : ℚ)) && (match t.max with | none => true | some mx => decide ((c : ℚ) < mx))

/-- Lines 487-496: one breakdown entry per bucket with a matching tier; the
bonus is the flat `tier.bonus_amount` of line 493. -/
def edgeWeekEntry (tiers : List EdgeMeetingTier) (wc : Nat × Nat) : Option WeekEntry :=
  (tiers.find? (edgeTierMatch wc.2)).map (fun t => WeekEntry.mk wc.1 wc.2 t.bonus_amount)

/-- Lines 479-496: the edge weekly breakdown. -/
def edgeWeeklyBreakdownOf (tiers : List EdgeMeetingTier) (ms : List Meeting) : List WeekEntry :=
  (weekBuckets ms).filterMap (edgeWeekEntry tiers)

/-- Line 493: `meetingBonus += tier.bonus_amount` over the pushed entries. -/
def edgeMeetingBonusOf (tiers : List EdgeMeetingTier) (ms : List Meeting) : ℚ :=
  ((edgeWeeklyBreakdownOf tiers ms).map (·.bonus)).sum

/-- The result the edge engine assembles when the AE branch (lines 459-477) is taken. -/
def edgeAEResult (repId repName team : String) (deals : List EdgeDeal) (meetings : List Meeting)
    (s : EdgeSettings) (startDate endDate : String) : EdgeResult :=
  let totalRevenue := edgeTotalRevenueOf deals
  let adjusted := edgeAdjustedRevenue team s totalRevenue
  let dealCommission :=
    aeBracketPart s.ae_brackets adjusted
      + ((deals.filter edgeIsClosedWon).map (edgeTermBonusAmount s.ae_payment_term_bonuses)).sum
  { repId := repId, repName := repName, team := team
    periodStart := startDate, periodEnd := endDate
    totalRevenue := totalRevenue
    totalCommission := dealCommission + 0
    dealCommission := dealCommission
    meetingBonus := 0
    totalMeetings := meetings.length
    weeklyBreakdown := [] }

/-- The result the edge engine assembles when the SDR branch (lines 478-498) is taken. -/
def edgeSDRResult (repId repName team : String) (deals : List EdgeDeal) (meetings : List Meeting)
    (s : EdgeSettings) (startDate endDate : String) : EdgeResult :=
  let totalRevenue := edgeTotalRevenueOf deals
  let adjusted := edgeAdjustedRevenue team s totalRevenue
  let meetingBonus := edgeMeetingBonusOf s.sdr_meeting_tiers meetings
  let dealCommission := adjusted * (s.sdr_closed_won_percent / 100)
  { repId := repId, repName := repName, team := team
    periodStart := startDate, periodEnd := endDate
    totalRevenue := totalRevenue
    totalCommission := dealCommission + meetingBonus
    dealCommission := dealCommission
    meetingBonus := meetingBonus
    totalMeetings := meetings.length
    weeklyBreakdown := edgeWeeklyBreakdownOf s.sdr_meeting_tiers meetings }

/-- Line 500: `d.channel?.toLowerCase() === 'inbound'`. -/
def edgeIsInbound (d : EdgeDeal) : Bool :=
  match d.channel with
  | none => false
  | some c => lowerStr c == "inbound"

/-- The result the edge engine assembles when the Marketing branch (lines 499-515) is taken. -/
def edgeMarketingResult (repId repName team : String) (deals : List EdgeDeal)
    (meetings : List Meeting) (s : EdgeSettings) (startDate endDate : String) : EdgeResult :=
  let inboundRevenue := (((deals.filter edgeIsClosedWon).filter edgeIsInbound).map (·.amount)).sum
  let dealCommission :=
    adjustRevenue s.marketing_revenue_multiplier_brackets inboundRevenue
      * (s.marketing_inbound_percent / 100)
  { repId := repId, repName := repName, team := team
    periodStart := startDate, periodEnd := endDate
    totalRevenue := edgeTotalRevenueOf deals
    totalCommission := dealCommission + 0
    dealCommission := dealCommission
    meetingBonus := 0
    totalMeetings := meetings.length
    weeklyBreakdown := [] }

/-- The result when no branch of lines 459-515 fires (team matches no keyword). -/
def edgeDefaultResult (repId repName team : String) (deals : List EdgeDeal)
    (meetings : List Meeting) (startDate endDate : String) : EdgeResult :=
  { repId := repId, repName := repName, team := team
    periodStart := startDate, periodEnd := endDate
    totalRevenue := edgeTotalRevenueOf deals
    totalCommission := 0 + 0
    dealCommission := 0
    meetingBonus := 0
    totalMeetings := meetings.length
    weeklyBreakdown := [] }

/-- Translation of the edge `calculateCommission` (lines 407-530): the per-team
branch is chosen by the containment flags of lines 455-457 in the priority
order of the `if`/`else if` chain of lines 459, 478 and 499. -/
def calculateCommissionEdge (repId repName team : String) (deals : List EdgeDeal)
    (meetings : List Meeting) (s : EdgeSettings) (startDate endDate : String) : EdgeResult :=
  if edgeIsAE team then
    edgeAEResult repId repName team deals meetings s startDate endDate
  else if edgeIsSDR team || (edgeIsMarketing team && s.marketing_same_as_sdr) then
    edgeSDRResult repId repName team deals meetings s startDate endDate
  else if edgeIsMarketing team && !s.marketing_same_as_sdr then
    edgeMarketingResult repId repName team deals meetings s startDate endDate
  else
    edgeDefaultResult repId repName team deals meetings startDate endDate

/-! ### Dynamic-semantics model of the library engine

For the failure-semantics claim the library engine is re-embedded with the
JavaScript dynamic behaviour made explicit: a deal `amount` may be malformed
(`none`, covering `undefined`/`NaN`), each rule table may be absent from the
settings row, and the computation either returns a result or surfaces the
runtime error JavaScript raises.  Reading `.find` off an absent table throws a
generic `TypeError` (`EngineError.typeError`); `EngineError.missingRuleTable`
is the distinct configuration-error kind the specification calls for, which
the code never produces.  Arithmetic on a malformed number follows NaN
propagation: `none` absorbs. -/

inductive EngineError where
  | typeError : EngineError
  | missingRuleTable : EngineError
deriving DecidableEq

structure DealE where
  amount : Option ℚ
  closedate : String
  dealstage : String
  hubspot_owner_id : String
  deal_channel : Option String
  payment_terms : Option String
deriving DecidableEq

structure SettingsE where
  ae_brackets : Option (List AeBracket)
  ae_payment_term_bonuses : Option (List TermBonus)
  ae_revenue_multiplier_brackets : Option (List MultBracket)
  sdr_meeting_tiers : Option (List MeetingTier)
  sdr_closed_won_percent : Option ℚ
  sdr_revenue_multiplier_brackets : Option (List MultBracket)
  marketing_same_as_sdr : Bool
  marketing_inbound_percent : Option ℚ
  marketing_revenue_multiplier_brackets : Option (List MultBracket)
deriving DecidableEq

structure CommissionResultE where
  totalRevenue : ℚ
  totalCommission : Option ℚ
  dealCommission : Option ℚ
  meetingBonus : ℚ
  totalMeetings : Nat
  weeklyBreakdown : List WeekEntry
deriving DecidableEq

/-- NaN-propagating addition: `none` models NaN. -/
def addN : Option ℚ → Option ℚ → Option ℚ
  | some a, some b => some (a + b)
  | _, _ => none

/-- NaN-propagating multiplication by a well-formed factor. -/
def mulN (a : Option ℚ) (b : ℚ) : Option ℚ :=
  match a with
  | some a => some (a * b)
  | none => none

def dealEIsClosedWon (d : DealE) : Bool :=
  strContainsLower d.dealstage "closed" && strContainsLower d.dealstage "won"

/-- Line 66: `(deal.amount || 0)` turns a malformed amount into `0` in the revenue sum. -/
def totalRevenueE (deals : List DealE) : ℚ :=
  ((deals.filter dealEIsClosedWon).map (fun d => d.amount.getD 0)).sum

/-- Lines 69-91: each multiplier lookup is guarded by a truthiness check on the
table, so an absent table silently leaves the revenue unchanged. -/
def adjustRevenueE (table : Option (List MultBracket)) (r : ℚ) : ℚ :=
  match table with
  | some t => adjustRevenue t r
  | none => r

def multTableForE : Team → SettingsE → Option (List MultBracket)
  | Team.AE, s => s.ae_revenue_multiplier_brackets
  | Team.SDR, s => s.sdr_revenue_multiplier_brackets
  | Team.Marketing, s => s.marketing_revenue_multiplier_brackets

/-- Line 106: `if (deal.payment_terms)` — `undefined` and `""` are falsy. -/
def dealEHasTerm (d : DealE) : Bool :=
  match d.payment_terms with
  | none => false
  | some t => !(t = "")

/-- Lines 105-116 with a possibly malformed amount: when a bonus row matches,
`deal.amount * (bonus.bonus_percent / 100)` is NaN for a malformed amount and
poisons the accumulated commission. -/
def termBonusStepE (bonuses : List TermBonus) (acc : Option ℚ) (d : DealE) : Option ℚ :=
  match d.payment_terms with
  | none => acc
  | some t =>
    if t = "" then acc
    else
      match bonuses.find? (fun b => lowerStr b.term == lowerStr t) with
      | some b => addN acc (mulN d.amount (b.bonus_percent / 100))
      | none => acc

/-- The SDR-rules body of the dynamic-semantics engine (lines 118-151): reading
`.find` off an absent tier table throws as soon as a week bucket exists, and an
absent `sdr_closed_won_percent` yields a NaN deal commission. -/
def sdrBodyE (s : SettingsE) (meetings : List Meeting) (totalRevenue adjusted : ℚ) :
    Except EngineError CommissionResultE :=
  let dealCommission : Option ℚ :=
    match s.sdr_closed_won_percent with
    | some p => some (adjusted * (p / 100))
    | none => none
  match s.sdr_meeting_tiers with
  | none =>
    if meetings.isEmpty then
      Except.ok
        { totalRevenue := totalRevenue
          totalCommission := addN dealCommission (some 0)
          dealCommission := dealCommission
          meetingBonus := 0
          totalMeetings := meetings.length
          weeklyBreakdown := [] }
    else Except.error EngineError.typeError
  | some tiers =>
    Except.ok
      { totalRevenue := totalRevenue
        totalCommission := addN dealCommission (some (meetingBonusOf tiers meetings))
        dealCommission := dealCommission
        meetingBonus := meetingBonusOf tiers meetings
        totalMeetings := meetings.length
        weeklyBreakdown := weeklyBreakdownOf tiers meetings }

/-- Dynamic-semantics translation of `calculateCommission` (lines 44-191): the
result is `Except.error EngineError.typeError` exactly where the JavaScript
code would throw (reading `.find` of an absent rule table). -/
def calculateCommissionE (team : Team) (deals : List DealE) (meetings : List Meeting)
    (s : SettingsE) : Except EngineError CommissionResultE :=
  let totalRevenue := totalRevenueE deals
  let adjusted := adjustRevenueE (multTableForE team s) totalRevenue
  let closedWon := deals.filter dealEIsClosedWon
  match team with
  | Team.AE =>
    match s.ae_brackets with
    | none => Except.error EngineError.typeError
    | some bs =>
      let bracketPart := aeBracketPart bs adjusted
      match s.ae_payment_term_bonuses with
      | none =>
        if closedWon.any dealEHasTerm then Except.error EngineError.typeError
        else
          Except.ok
            { totalRevenue := totalRevenue
              totalCommission := some (bracketPart + 0)
              dealCommission := some bracketPart
              meetingBonus := 0
              totalMeetings := meetings.length
              weeklyBreakdown := [] }
      | some bonuses =>
        let dealCommission := closedWon.foldl (termBonusStepE bonuses) (some bracketPart)
        Except.ok
          { totalRevenue := totalRevenue
            totalCommission := addN dealCommission (some 0)
            dealCommission := dealCommission
            meetingBonus := 0
            totalMeetings := meetings.length
            weeklyBreakdown := [] }
  | Team.SDR => sdrBodyE s meetings totalRevenue adjusted
  | Team.Marketing =>
    if s.marketing_same_as_sdr then sdrBodyE s meetings totalRevenue adjusted
    else
      let inboundRevenue :=
        ((closedWon.filter (fun d =>
          match d.deal_channel with
          | none => false
          | some c => lowerStr c == "inbound")).map (fun d => d.amount.getD 0)).sum
      let adjInbound := adjustRevenueE s.marketing_revenue_multiplier_brackets inboundRevenue
      let dealCommission : Option ℚ :=
        match s.marketing_inbound_percent with
        | some p => some (adjInbound * (p / 100))
        | none => none
      Except.ok
        { totalRevenue := totalRevenue
          totalCommission := addN dealCommission (some 0)
          dealCommission := dealCommission
          meetingBonus := 0
          totalMeetings := meetings.length
          weeklyBreakdown := [] }

/-! ### Bracket-table shape predicates

The monotonicity claim needs the caller-side obligations under which first-match
bracket lookup is monotone: the table is sorted ascending, the ranges are
contiguous from a base revenue `m` with an unbounded top range, and the percents
are non-negative and non-decreasing. -/

/-- The brackets tile `[m, ∞)`: each entry starts where demanded, every entry
except the last has a finite `max` that the next entry starts at, and the last
entry is unbounded. -/
def contigChain (m : ℚ) : List AeBracket → Bool
  | [] => false
  | b :: rest =>
    decide (b.min = m) &&
      (match rest with
       | [] => b.max.isNone
       | _ :: _ =>
         match b.max with
         | some mx => decide (m ≤ mx) && contigChain mx rest
         | none => false)

/-- The `percent` fields are non-decreasing along the table. -/
def percentsMono : List AeBracket → Bool
  | [] => true
  | [_] => true
  | b :: b' :: rest => decide (b.percent ≤ b'.percent) && percentsMono (b' :: rest)

/-- Every `percent` field is non-negative. -/
def percentsNonneg (bs : List AeBracket) : Bool :=
  bs.all (fun b => decide (0 ≤ b.percent))

/-! ### Concrete inputs for the specification scenarios and counterexamples -/

/-- Scenario A deal: amount 60000, stage "Closed Won", payment term "6 months". -/
def scenADeals : List Deal :=
  [Deal.mk 60000 "2024-01-31" "Closed Won" "owner1" none (some "6 months")]

/-- Scenario A settings: brackets 0-50000 at 5, 50000-∞ at 7.5; term bonus 2 on "6 months". -/
def scenASettings : CommissionSettings :=
  CommissionSettings.mk
    [AeBracket.mk 0 (some 50000) 5, AeBracket.mk 50000 none (15 / 2)]
    [TermBonus.mk "6 months" 2]
    [] [] 0 [] false 0 []

/-- Scenario D deal: closed-won revenue 500, below every bracket. -/
def scenDDeals : List Deal :=
  [Deal.mk 500 "2024-01-31" "closedwon" "owner1" none none]

/-- Scenario D settings: brackets start at min 1000. -/
def scenDSettings : CommissionSettings :=
  CommissionSettings.mk [AeBracket.mk 1000 (some 2000) 5] [] [] [] 0 [] false 0 []

/-- Scenario B meetings: three in ISO week 1 of 2024, six in ISO week 2. -/
def scenBMeetings : List Meeting :=
  [Meeting.mk (CivilDate.mk 2024 1 2), Meeting.mk (CivilDate.mk 2024 1 3),
   Meeting.mk (CivilDate.mk 2024 1 4),
   Meeting.mk (CivilDate.mk 2024 1 8), Meeting.mk (CivilDate.mk 2024 1 9),
   Meeting.mk (CivilDate.mk 2024 1 10), Meeting.mk (CivilDate.mk 2024 1 11),
   Meeting.mk (CivilDate.mk 2024 1 12), Meeting.mk (CivilDate.mk 2024 1 13)]

/-- Scenario B deals: closed-won revenue 20000. -/
def scenBDeals : List Deal :=
  [Deal.mk 20000 "2024-01-31" "Closed Won" "owner1" none none]

/-- Scenario B settings: tiers [0,5) and [5,10), closed-won percent 5. -/
def scenBSettings : CommissionSettings :=
  CommissionSettings.mk [] []
    []
    [MeetingTier.mk 0 (some 5) 50, MeetingTier.mk 5 (some 10) 100]
    5 [] false 0 []

/-- Scenario C deals: inbound 10000 and outbound 5000, both closed-won. -/
def scenCDeals : List Deal :=
  [Deal.mk 10000 "2024-01-31" "Closed Won" "owner1" (some "Inbound") none,
   Deal.mk 5000 "2024-01-31" "Closed Won" "owner1" (some "outbound") none]

/-- Scenario C settings: `marketing_same_as_sdr = false`, inbound percent 3. -/
def scenCSettings : CommissionSettings :=
  CommissionSettings.mk [] [] [] [] 0 [] false 3 []

/-- Multiplier witness deal: closed-won revenue 60000. -/
def scen5Deals : List Deal :=
  [Deal.mk 60000 "2024-01-31" "Closed Won" "owner1" none none]

/-- Multiplier witness settings: AE multiplier bracket [50000, ∞) with factor 2. -/
def scen5Settings : CommissionSettings :=
  CommissionSettings.mk [] [] [MultBracket.mk 50000 none 2] [] 0 [] false 0 []

/-- Edge-dispatch deals: one closed-won deal of 1000. -/
def edge6Deals : List EdgeDeal :=
  [EdgeDeal.mk 1000 "2024-01-31" "Closed Won" "owner1" none none]

/-- Edge-dispatch settings chosen so the AE branch (empty weekly breakdown) and
the SDR branch (one tier entry per meeting week) produce different results. -/
def edge6Settings : EdgeSettings :=
  EdgeSettings.mk [AeBracket.mk 0 none 10] [] [] [EdgeMeetingTier.mk 0 none 50] 0 [] false 0 []

/-- One meeting (ISO week 2 of 2024) making the edge SDR branch emit a
breakdown entry. -/
def c6Meetings : List Meeting := [Meeting.mk (CivilDate.mk 2024 1 10)]

/-- One meeting (2024-01-10, ISO week 2) for the week-partition counterexample. -/
def c7Meetings : List Meeting := [Meeting.mk (CivilDate.mk 2024 1 10)]

/-- Settings with an empty tier table: the week bucket of the single meeting
matches no tier, so no breakdown entry is emitted. -/
def c7Settings : CommissionSettings :=
  CommissionSettings.mk [] [] [] [] 5 [] false 0 []

/-- Monotonicity counterexample bracket table: a single bounded bracket
[1000, 2000) at 5 percent; its `percent`s are trivially non-decreasing. -/
def c8Brackets : List AeBracket := [AeBracket.mk 1000 (some 2000) 5]

/-- Settings carrying `c8Brackets` for the AE team. -/
def c8Settings : CommissionSettings :=
  CommissionSettings.mk c8Brackets [] [] [] 0 [] false 0 []

/-- A closed-won deal inside the bracket (adjusted revenue 1500). -/
def c8DealLow : List Deal := [Deal.mk 1500 "2024-01-31" "closedwon" "owner1" none none]

/-- A closed-won deal above the bracket (adjusted revenue 3000, no match). -/
def c8DealHigh : List Deal := [Deal.mk 3000 "2024-01-31" "closedwon" "owner1" none none]

/-- A well-formed contiguous bracket table for the monotonicity witness. -/
def w8Brackets : List AeBracket :=
  [AeBracket.mk 0 (some 50000) 5, AeBracket.mk 50000 none (15 / 2)]

/-- Failure-semantics settings with `ae_brackets` absent. -/
def s9missing : SettingsE :=
  SettingsE.mk none (some []) none (some []) (some 0) none false (some 0) none

/-- Failure-semantics settings with every rule table present. -/
def s9ok : SettingsE :=
  SettingsE.mk (some [AeBracket.mk 0 none 5]) (some [TermBonus.mk "6 months" 2])
    (some []) (some []) (some 0) (some []) false (some 0) (some [])

/-- A closed-won deal whose amount is malformed and whose payment term matches a
bonus row. -/
def d9bad : DealE :=
  DealE.mk none "2024-01-31" "Closed Won" "owner1" none (some "6 months")

/-! ### Helper lemmas -/

/-- Unfolding equation: a found bracket contributes `r * percent / 100`. -/
theorem aeBracketPart_eq_of_find (bs : List AeBracket) (r : ℚ) (b : AeBracket)
    (h : bs.find? (aeMatch r) = some b) : aeBracketPart bs r = r * (b.percent / 100) := by
  unfold aeBracketPart
  rw [h]

/-- Unfolding equation: with no matching bracket the contribution is `0`. -/
theorem aeBracketPart_eq_zero_of_none (bs : List AeBracket) (r : ℚ)
    (h : bs.find? (aeMatch r) = none) : aeBracketPart bs r = 0 := by
  unfold aeBracketPart
  rw [h]

/-- `List.find?` returns the element at the first index whose test succeeds. -/
theorem find?_eq_get_of_first {α : Type} (p : α → Bool) :
    ∀ (l : List α) (i : Nat) (hi : i < l.length),
      p (l.get ⟨i, hi⟩) = true →
      (∀ j (hj : j < i), p (l.get ⟨j, Nat.lt_trans hj hi⟩) = false) →
      l.find? p = some (l.get ⟨i, hi⟩)
  | [], i, hi, _, _ => absurd hi (Nat.not_lt_zero i)
  | a :: l, 0, _, hp, _ => by
      simpa using List.find?_cons_of_pos _ hp
  | a :: l, Nat.succ n, hi, hp, hb => by
      have ha : p a = false := by simpa using hb 0 (Nat.succ_pos n)
      rw [List.find?_cons_of_neg _ (by simp [ha])]
      exact find?_eq_get_of_first p l n (Nat.lt_of_succ_lt_succ hi) hp
        (fun j hj => hb (j + 1) (Nat.succ_lt_succ hj))

/-- Sum of an indicator over a list not containing the index is `0`. -/
theorem sum_boolind_zero (x : Nat) :
    ∀ (keys : List Nat), x ∉ keys →
      (keys.map (fun k => if x = k then 1 else 0)).sum = 0
  | [], _ => rfl
  | k :: ks, h => by
      have hx : ¬ x = k := fun e => h (e ▸ List.mem_cons_self k ks)
      simp only [List.map_cons, List.sum_cons, if_neg hx,
        sum_boolind_zero x ks (fun m => h (List.mem_cons_of_mem k m))]

/-- Sum of an indicator over a duplicate-free list containing the index is `1`. -/
theorem sum_boolind_one (x : Nat) :
    ∀ (keys : List Nat), keys.Nodup → x ∈ keys →
      (keys.map (fun k => if x = k then 1 else 0)).sum = 1
  | [], _, hm => absurd hm (List.not_mem_nil x)
  | k :: ks, hnd, hm => by
      rcases List.mem_cons.mp hm with rfl | h
      · have hx : x ∉ ks := (List.nodup_cons.mp hnd).1
        simp [sum_boolind_zero x ks hx]
      · have hx : ¬ x = k := fun e => (List.nodup_cons.mp hnd).1 (e ▸ h)
        simp [if_neg hx, sum_boolind_one x ks (List.nodup_cons.mp hnd).2 h]

/-- Partition count: summing, over a duplicate-free covering key list, the sizes
of the fibres of `f` gives back the length of the list. -/
theorem sum_filter_lengths {α : Type} (f : α → Nat) (keys : List Nat) (hnd : keys.Nodup) :
    ∀ (l : List α), (∀ a ∈ l, f a ∈ keys) →
      (keys.map (fun k => (l.filter (fun a => decide (f a = k))).length)).sum = l.length
  | [], _ => by simp
  | a :: l, hcov => by
      have ih := sum_filter_lengths f keys hnd l (fun x hx => hcov x (List.mem_cons_of_mem a hx))
      have hpt : ∀ k, ((a :: l).filter (fun x => decide (f x = k))).length
          = (if f a = k then 1 else 0) + (l.filter (fun x => decide (f x = k))).length := by
        intro k
        by_cases h : f a = k <;> simp [List.filter_cons, h, Nat.add_comm]
      have hmap : (keys.map (fun k => ((a :: l).filter (fun x => decide (f x = k))).length))
          = keys.map (fun k =>
              (if f a = k then 1 else 0) + (l.filter (fun x => decide (f x = k))).length) :=
        List.map_congr_left (fun k _ => hpt k)
      rw [hmap, List.sum_map_add, sum_boolind_one (f a) keys hnd (hcov a (List.mem_cons_self a l)), ih]
      simp [Nat.add_comm]

/-- The week key list has no duplicates. -/
theorem weekKeys_nodup (ms : List Meeting) : (weekKeys ms).Nodup :=
  (List.perm_insertionSort _ _).nodup_iff.mpr (List.nodup_dedup _)

/-- A week number is a key exactly when some meeting falls in that week. -/
theorem mem_weekKeys {ms : List Meeting} {w : Nat} : w ∈ weekKeys ms ↔ w ∈ ms.map weekOf := by
  unfold weekKeys
  rw [(List.perm_insertionSort _ _).mem_iff, List.mem_dedup]

/-- Mapping the first projection over key-value pairs recovers the keys. -/
theorem map_fst_pair {α β : Type} (g : α → β) :
    ∀ ks : List α, (ks.map (fun w => (w, g w))).map Prod.fst = ks
  | [] => rfl
  | k :: ks => by simp [map_fst_pair g ks]

/-- The first components of the week buckets are the week keys. -/
theorem weekBuckets_fst (ms : List Meeting) : (weekBuckets ms).map Prod.fst = weekKeys ms := by
  unfold weekBuckets
  exact map_fst_pair _ _

/-- The bucket sizes sum to the number of meetings: every meeting is counted in
exactly one week bucket. -/
theorem weekBuckets_snd_sum (ms : List Meeting) :
    ((weekBuckets ms).map Prod.snd).sum = ms.length := by
  unfold weekBuckets
  rw [List.map_map]
  exact sum_filter_lengths weekOf (weekKeys ms) (weekKeys_nodup ms) ms
    (fun m hm => mem_weekKeys.mpr (List.mem_map_of_mem _ hm))

/-- When every bucket's count matches some tier, the breakdown lists exactly the
bucket sizes. -/
theorem filterMap_weekEntry_meetings (tiers : List MeetingTier) :
    ∀ (bs : List (Nat × Nat)),
      (∀ wc ∈ bs, ((tiers.find? (tierMatch wc.2)).isSome : Bool) = true) →
      (bs.filterMap (weekEntry tiers)).map (fun e => e.meetings) = bs.map Prod.snd
  | [], _ => rfl
  | wc :: bs, h => by
      obtain ⟨t, ht⟩ := Option.isSome_iff_exists.mp (h wc (List.mem_cons_self wc bs))
      have ih := filterMap_weekEntry_meetings tiers bs
        (fun x hx => h x (List.mem_cons_of_mem wc hx))
      simp [List.filterMap_cons, weekEntry, ht, ih]

/-! Equations and facts about the contiguous-bracket predicates. -/

theorem contigChain_nil (m : ℚ) : contigChain m [] = false := rfl

theorem contigChain_single (m : ℚ) (b : AeBracket) :
    contigChain m [b] = (decide (b.min = m) && b.max.isNone) := rfl

theorem contigChain_cons (m : ℚ) (b b' : AeBracket) (rs : List AeBracket) :
    contigChain m (b :: b' :: rs)
      = (decide (b.min = m) &&
          (match b.max with
           | some mx => decide (m ≤ mx) && contigChain mx (b' :: rs)
           | none => false)) := rfl

theorem percentsMono_cons (b c : AeBracket) (cs : List AeBracket) :
    percentsMono (b :: c :: cs) = (decide (b.percent ≤ c.percent) && percentsMono (c :: cs)) := rfl

/-- Below the base of a contiguous table nothing matches. -/
theorem contigChain_find_none (r : ℚ) :
    ∀ (m : ℚ) (bs : List AeBracket), contigChain m bs = true → r < m →
      bs.find? (aeMatch r) = none
  | m, [], h, _ => by rw [contigChain_nil] at h; exact absurd h (by simp)
  | m, b :: rest, h, hr => by
      cases rest with
      | nil =>
        rw [contigChain_single] at h
        simp only [Bool.and_eq_true, decide_eq_true_eq] at h
        have hnle : ¬ b.min ≤ r := by rw [h.1]; exact not_le.mpr hr
        have hmatch : aeMatch r b = false := by simp [aeMatch, hnle]
        rw [List.find?_cons_of_neg _ (by simp [hmatch])]
        rfl
      | cons b' rs =>
        cases hmax : b.max with
        | none => rw [contigChain_cons, hmax] at h; simp at h
        | some mx =>
          rw [contigChain_cons, hmax] at h
          simp only [Bool.and_eq_true, decide_eq_true_eq] at h
          obtain ⟨h1, h2, h3⟩ := h
          have hnle : ¬ b.min ≤ r := by rw [h1]; exact not_le.mpr hr
          have hmatch : aeMatch r b = false := by simp [aeMatch, hnle]
          rw [List.find?_cons_of_neg _ (by simp [hmatch])]
          exact contigChain_find_none r mx (b' :: rs) h3 (lt_of_lt_of_le hr h2)

/-- At or above the base of a contiguous table some bracket always matches. -/
theorem contigChain_find_some (r : ℚ) :
    ∀ (m : ℚ) (bs : List AeBracket), contigChain m bs = true → m ≤ r →
      ∃ b, bs.find? (aeMatch r) = some b
  | m, [], h, _ => by rw [contigChain_nil] at h; exact absurd h (by simp)
  | m, b :: rest, h, hr => by
      cases rest with
      | nil =>
        rw [contigChain_single] at h
        simp only [Bool.and_eq_true, decide_eq_true_eq] at h
        have hmax : b.max = none := Option.isNone_iff_eq_none.mp h.2
        have hle : b.min ≤ r := by rw [h.1]; exact hr
        have hmatch : aeMatch r b = true := by simp [aeMatch, hmax, hle]
        exact ⟨b, List.find?_cons_of_pos _ hmatch⟩
      | cons b' rs =>
        cases hmax : b.max with
        | none => rw [contigChain_cons, hmax] at h; simp at h
        | some mx =>
          rw [contigChain_cons, hmax] at h
          simp only [Bool.and_eq_true, decide_eq_true_eq] at h
          obtain ⟨h1, h2, h3⟩ := h
          by_cases hlt : r < mx
          · have hle : b.min ≤ r := by rw [h1]; exact hr
            have hmatch : aeMatch r b = true := by simp [aeMatch, hmax, hle, hlt]
            exact ⟨b, List.find?_cons_of_pos _ hmatch⟩
          · have hmatch : aeMatch r b = false := by simp [aeMatch, hmax, hlt]
            rw [List.find?_cons_of_neg _ (by simp [hmatch])]
            exact contigChain_find_some r mx (b' :: rs) h3 (not_lt.mp hlt)

/-- In a table with non-decreasing percents every later percent dominates the head's. -/
theorem percentsMono_head_le :
    ∀ (b : AeBracket) (l : List AeBracket), percentsMono (b :: l) = true →
      ∀ x ∈ l, b.percent ≤ x.percent
  | _, [], _, x, hx => absurd hx (List.not_mem_nil x)
  | b, c :: cs, h, x, hx => by
      rw [percentsMono_cons] at h
      simp only [Bool.and_eq_true, decide_eq_true_eq] at h
      rcases List.mem_cons.mp hx with rfl | h1
      · exact h.1
      · exact le_trans h.1 (percentsMono_head_le c cs h.2 x h1)

/-- Tails of tables with non-decreasing percents again have non-decreasing percents. -/
theorem percentsMono_tail :
    ∀ (b : AeBracket) (l : List AeBracket), percentsMono (b :: l) = true → percentsMono l = true
  | _, [], _ => rfl
  | b, c :: cs, h => by
      rw [percentsMono_cons] at h
      exact (Bool.and_eq_true _ _ |>.mp h).2

/-- Every member of a table with non-negative percents has a non-negative percent. -/
theorem percentsNonneg_mem {bs : List AeBracket} {b : AeBracket}
    (h : percentsNonneg bs = true) (hb : b ∈ bs) : 0 ≤ b.percent :=
  of_decide_eq_true (List.all_eq_true.mp h b hb)

/-- On a contiguous table with non-decreasing percents the percent found for a
larger revenue dominates the percent found for a smaller one. -/
theorem contigChain_percent_mono (r1 r2 : ℚ) :
    ∀ (m : ℚ) (bs : List AeBracket), contigChain m bs = true → percentsMono bs = true →
      m ≤ r1 → r1 ≤ r2 →
      ∀ b1 b2, bs.find? (aeMatch r1) = some b1 → bs.find? (aeMatch r2) = some b2 →
        b1.percent ≤ b2.percent
  | m, [], h, _, _, _, _, _, _, _ => by rw [contigChain_nil] at h; exact absurd h (by simp)
  | m, b :: rest, h, hmono, hr1, hr12, b1, b2, hf1, hf2 => by
      cases rest with
      | nil =>
        rw [contigChain_single] at h
        simp only [Bool.and_eq_true, decide_eq_true_eq] at h
        have hmax : b.max = none := Option.isNone_iff_eq_none.mp h.2
        have hle1 : b.min ≤ r1 := by rw [h.1]; exact hr1
        have hle2 : b.min ≤ r2 := le_trans hle1 hr12
        have hmatch1 : aeMatch r1 b = true := by simp [aeMatch, hmax, hle1]
        have hmatch2 : aeMatch r2 b = true := by simp [aeMatch, hmax, hle2]
        rw [List.find?_cons_of_pos _ hmatch1] at hf1
        rw [List.find?_cons_of_pos _ hmatch2] at hf2
        rw [← Option.some.inj hf1, ← Option.some.inj hf2]
      | cons b' rs =>
        cases hmax : b.max with
        | none => rw [contigChain_cons, hmax] at h; simp at h
        | some mx =>
          rw [contigChain_cons, hmax] at h
          simp only [Bool.and_eq_true, decide_eq_true_eq] at h
          obtain ⟨h1, h2, h3⟩ := h
          by_cases hlt1 : r1 < mx
          · have hle1 : b.min ≤ r1 := by rw [h1]; exact hr1
            have hmatch1 : aeMatch r1 b = true := by simp [aeMatch, hmax, hle1, hlt1]
            rw [List.find?_cons_of_pos _ hmatch1] at hf1
            rw [← Option.some.inj hf1]
            by_cases hlt2 : r2 < mx
            · have hle2 : b.min ≤ r2 := le_trans hle1 hr12
              have hmatch2 : aeMatch r2 b = true := by simp [aeMatch, hmax, hle2, hlt2]
              rw [List.find?_cons_of_pos _ hmatch2] at hf2
              rw [← Option.some.inj hf2]
            · have hmatch2 : aeMatch r2 b = false := by simp [aeMatch, hmax, hlt2]
              rw [List.find?_cons_of_neg _ (by simp [hmatch2])] at hf2
              exact percentsMono_head_le b (b' :: rs) hmono b2 (List.mem_of_find?_eq_some hf2)
          · have hge1 : mx ≤ r1 := not_lt.mp hlt1
            have hnl2 : ¬ r2 < mx := not_lt.mpr (le_trans hge1 hr12)
            have hmatch1 : aeMatch r1 b = false := by simp [aeMatch, hmax, hlt1]
            have hmatch2 : aeMatch r2 b = false := by simp [aeMatch, hmax, hnl2]
            rw [List.find?_cons_of_neg _ (by simp [hmatch1])] at hf1
            rw [List.find?_cons_of_neg _ (by simp [hmatch2])] at hf2
            exact contigChain_percent_mono r1 r2 mx (b' :: rs) h3
              (percentsMono_tail b _ hmono) hge1 hr12 b1 b2 hf1 hf2


/-! ### Claim theorems -/

/-- C10: for every call of `calculateCommission`, regardless of team, the result
satisfies `totalCommission = dealCommission + meetingBonus`, and `totalMeetings`
is the length of the meetings input. -/
theorem C10_assembly (repId repName : String) (team : Team) (deals : List Deal)
    (meetings : List Meeting) (s : CommissionSettings) :
    (calculateCommission repId repName team deals meetings s).totalCommission
        = (calculateCommission repId repName team deals meetings s).dealCommission
          + (calculateCommission repId repName team deals meetings s).meetingBonus
    ∧ (calculateCommission repId repName team deals meetings s).totalMeetings
        = meetings.length := by
  cases team with
  | AE => exact ⟨rfl, rfl⟩
  | SDR => exact ⟨rfl, rfl⟩
  | Marketing =>
    by_cases h : s.marketing_same_as_sdr
    · constructor <;> simp [calculateCommission, h]
    · constructor <;> simp [calculateCommission, h]

/-- C4: for every call, `totalRevenue` is the sum of `amount` over exactly the
deals whose stage contains both "closed" and "won" case-insensitively; other
deals contribute nothing and the reported figure is never multiplier-adjusted,
for every team and settings. -/
theorem C4_total_revenue (repId repName : String) (team : Team) (deals : List Deal)
    (meetings : List Meeting) (s : CommissionSettings) :
    (calculateCommission repId repName team deals meetings s).totalRevenue
      = ((deals.filter (fun d =>
            strContainsLower d.dealstage "closed" && strContainsLower d.dealstage "won")).map
          (fun d => d.amount)).sum := by
  have hraw : (calculateCommission repId repName team deals meetings s).totalRevenue
      = totalRevenueOf deals := by
    cases team with
    | AE => rfl
    | SDR => rfl
    | Marketing =>
      by_cases h : s.marketing_same_as_sdr <;> simp [calculateCommission, h]
  rw [hraw]
  rfl

/-- C5: `adjustedRevenue` is `totalRevenue * multiplier` for the first entry of
the active team's multiplier table containing `totalRevenue` (first-match order
over the table as supplied; the engine does not sort), and is `totalRevenue`
itself when no entry matches. -/
theorem C5_revenue_multiplier (team : Team) (deals : List Deal) (s : CommissionSettings) :
    (∀ i (hi : i < (multTableFor team s).length),
        multMatch (totalRevenueOf deals) ((multTableFor team s).get ⟨i, hi⟩) = true →
        (∀ j (hj : j < i),
          multMatch (totalRevenueOf deals) ((multTableFor team s).get ⟨j, Nat.lt_trans hj hi⟩)
            = false) →
        adjustedRevenueOf team deals s
          = totalRevenueOf deals * ((multTableFor team s).get ⟨i, hi⟩).multiplier)
    ∧ ((∀ b ∈ multTableFor team s, multMatch (totalRevenueOf deals) b = false) →
        adjustedRevenueOf team deals s = totalRevenueOf deals) := by
  constructor
  · intro i hi hmatch hbefore
    unfold adjustedRevenueOf adjustRevenue
    rw [find?_eq_get_of_first _ _ i hi hmatch hbefore]
  · intro hnone
    unfold adjustedRevenueOf adjustRevenue
    rw [List.find?_eq_none.mpr (fun x hx => by simp [hnone x hx])]

/-- The closed-won revenue of the multiplier-witness deal list. -/
theorem scen5_totalRevenue : totalRevenueOf scen5Deals = 60000 := by
  unfold totalRevenueOf
  rw [show scen5Deals.filter isClosedWon = scen5Deals from by decide]
  norm_num [scen5Deals]

/-- Witness for C5: revenue 60000 falls in the first (and only) bracket
`[50000, ∞)` of multiplier 2, so the adjusted revenue doubles. -/
theorem C5_revenue_multiplier_witness :
    adjustedRevenueOf Team.AE scen5Deals scen5Settings = 120000 := by
  have h := (C5_revenue_multiplier Team.AE scen5Deals scen5Settings).1 0 (by decide)
    (by rw [scen5_totalRevenue]; decide) (fun j hj => absurd hj (Nat.not_lt_zero j))
  rw [h, scen5_totalRevenue]
  show (60000 : ℚ) * 2 = 120000
  norm_num

/-! Scenario A and Scenario D evaluations. -/

theorem scenA_totalRevenue : totalRevenueOf scenADeals = 60000 := by
  unfold totalRevenueOf
  rw [show scenADeals.filter isClosedWon = scenADeals from by decide]
  norm_num [scenADeals]

theorem scenA_adjusted : adjustedRevenueOf Team.AE scenADeals scenASettings = 60000 := by
  unfold adjustedRevenueOf
  rw [scenA_totalRevenue]
  rfl

theorem scenA_find :
    scenASettings.ae_brackets.find? (aeMatch 60000)
      = some (AeBracket.mk 50000 none (15 / 2)) := by
  show List.find? (aeMatch 60000)
      [AeBracket.mk 0 (some 50000) 5, AeBracket.mk 50000 none (15 / 2)] = _
  rw [List.find?_cons_of_neg _ (by decide), List.find?_cons_of_pos _ (by decide)]

theorem scenA_dealCommission :
    (calculateCommission "rep" "name" Team.AE scenADeals [] scenASettings).dealCommission
      = 5700 := by
  show aeBracketPart scenASettings.ae_brackets (adjustedRevenueOf Team.AE scenADeals scenASettings)
      + ((scenADeals.filter isClosedWon).map
          (termBonusAmount scenASettings.ae_payment_term_bonuses)).sum = 5700
  rw [scenA_adjusted, aeBracketPart_eq_of_find _ _ _ scenA_find]
  rw [show (scenADeals.filter isClosedWon).map (termBonusAmount scenASettings.ae_payment_term_bonuses)
        = [60000 * ((2 : ℚ) / 100)] from rfl]
  norm_num [List.sum_cons, List.sum_nil]

theorem scenA_totalCommission :
    (calculateCommission "rep" "name" Team.AE scenADeals [] scenASettings).totalCommission
      = 5700 := by
  show (calculateCommission "rep" "name" Team.AE scenADeals [] scenASettings).dealCommission + 0
      = 5700
  rw [scenA_dealCommission]
  norm_num

theorem scenD_adjusted : adjustedRevenueOf Team.AE scenDDeals scenDSettings = 500 := by
  unfold adjustedRevenueOf
  rw [show totalRevenueOf scenDDeals = 500 from by
    unfold totalRevenueOf
    rw [show scenDDeals.filter isClosedWon = scenDDeals from by decide]
    norm_num [scenDDeals]]
  rfl

theorem scenD_nomatch :
    ∀ b ∈ scenDSettings.ae_brackets,
      aeMatch (adjustedRevenueOf Team.AE scenDDeals scenDSettings) b = false := by
  intro b hb
  rw [scenD_adjusted]
  have hb' : b ∈ [AeBracket.mk 1000 (some 2000) 5] := hb
  rw [List.mem_singleton] at hb'
  subst hb'
  decide

theorem scenD_dealCommission :
    (calculateCommission "rep" "name" Team.AE scenDDeals [] scenDSettings).dealCommission
      = 0 := by
  show aeBracketPart scenDSettings.ae_brackets (adjustedRevenueOf Team.AE scenDDeals scenDSettings)
      + ((scenDDeals.filter isClosedWon).map
          (termBonusAmount scenDSettings.ae_payment_term_bonuses)).sum = 0
  rw [aeBracketPart_eq_zero_of_none _ _ (List.find?_eq_none.mpr
    (fun x hx => by simp [scenD_nomatch x hx]))]
  rw [show (scenDDeals.filter isClosedWon).map (termBonusAmount scenDSettings.ae_payment_term_bonuses)
        = [(0 : ℚ)] from rfl]
  norm_num [List.sum_cons, List.sum_nil]

theorem scenD_usedBracket :
    (calculateCommission "rep" "name" Team.AE scenDDeals [] scenDSettings).usedBracketPercent
      = none := by
  show usedBracketPercentOf scenDSettings.ae_brackets
      (adjustedRevenueOf Team.AE scenDDeals scenDSettings) = none
  unfold usedBracketPercentOf
  rw [List.find?_eq_none.mpr (fun x hx => by simp [scenD_nomatch x hx])]
  rfl

/-- C1: for AE calls the deal commission is the first-matching bracket's percent
applied to the adjusted revenue plus, for every closed-won deal with a non-empty
payment term, the case-insensitively matching term bonus; `usedBracketPercent`
records the percent; no bracket match contributes 0 with `usedBracketPercent`
unset; and `meetingBonus` is 0.  Scenario A yields totalRevenue 60000,
dealCommission 5700, meetingBonus 0, totalCommission 5700; Scenario D yields
dealCommission 0 with `usedBracketPercent` unset. -/
theorem C1_ae_commission (repId repName : String) (deals : List Deal)
    (meetings : List Meeting) (s : CommissionSettings) :
    (calculateCommission repId repName Team.AE deals meetings s).meetingBonus = 0
    ∧ (∀ i (hi : i < s.ae_brackets.length),
        aeMatch (adjustedRevenueOf Team.AE deals s) (s.ae_brackets.get ⟨i, hi⟩) = true →
        (∀ j (hj : j < i),
          aeMatch (adjustedRevenueOf Team.AE deals s) (s.ae_brackets.get ⟨j, Nat.lt_trans hj hi⟩)
            = false) →
        (calculateCommission repId repName Team.AE deals meetings s).dealCommission
            = adjustedRevenueOf Team.AE deals s * ((s.ae_brackets.get ⟨i, hi⟩).percent / 100)
              + ((deals.filter isClosedWon).map (termBonusAmount s.ae_payment_term_bonuses)).sum
          ∧ (calculateCommission repId repName Team.AE deals meetings s).usedBracketPercent
            = some (s.ae_brackets.get ⟨i, hi⟩).percent)
    ∧ ((∀ b ∈ s.ae_brackets, aeMatch (adjustedRevenueOf Team.AE deals s) b = false) →
        (calculateCommission repId repName Team.AE deals meetings s).dealCommission
            = ((deals.filter isClosedWon).map (termBonusAmount s.ae_payment_term_bonuses)).sum
          ∧ (calculateCommission repId repName Team.AE deals meetings s).usedBracketPercent
            = none)
    ∧ (calculateCommission "rep" "name" Team.AE scenADeals [] scenASettings).totalRevenue = 60000
    ∧ (calculateCommission "rep" "name" Team.AE scenADeals [] scenASettings).dealCommission = 5700
    ∧ (calculateCommission "rep" "name" Team.AE scenADeals [] scenASettings).meetingBonus = 0
    ∧ (calculateCommission "rep" "name" Team.AE scenADeals [] scenASettings).totalCommission = 5700
    ∧ (calculateCommission "rep" "name" Team.AE scenDDeals [] scenDSettings).dealCommission = 0
    ∧ (calculateCommission "rep" "name" Team.AE scenDDeals [] scenDSettings).usedBracketPercent
        = none := by
  refine ⟨rfl, ?_, ?_, scenA_totalRevenue, scenA_dealCommission, rfl, scenA_totalCommission,
    scenD_dealCommission, scenD_usedBracket⟩
  · intro i hi hm hb
    have hfind := find?_eq_get_of_first (aeMatch (adjustedRevenueOf Team.AE deals s))
      s.ae_brackets i hi hm hb
    constructor
    · show aeBracketPart s.ae_brackets (adjustedRevenueOf Team.AE deals s)
          + ((deals.filter isClosedWon).map (termBonusAmount s.ae_payment_term_bonuses)).sum = _
      rw [aeBracketPart_eq_of_find _ _ _ hfind]
    · show usedBracketPercentOf s.ae_brackets (adjustedRevenueOf Team.AE deals s) = _
      unfold usedBracketPercentOf
      rw [hfind]
      rfl
  · intro hnone
    have hfind : s.ae_brackets.find? (aeMatch (adjustedRevenueOf Team.AE deals s)) = none :=
      List.find?_eq_none.mpr (fun x hx => by simp [hnone x hx])
    constructor
    · show aeBracketPart s.ae_brackets (adjustedRevenueOf Team.AE deals s)
          + ((deals.filter isClosedWon).map (termBonusAmount s.ae_payment_term_bonuses)).sum = _
      rw [aeBracketPart_eq_zero_of_none _ _ hfind, zero_add]
    · show usedBracketPercentOf s.ae_brackets (adjustedRevenueOf Team.AE deals s) = none
      unfold usedBracketPercentOf
      rw [hfind]
      rfl

/-- Witness for C1: Scenario D's adjusted revenue 500 sits below every bracket,
so the no-match case of the claim applies at this concrete input. -/
theorem C1_ae_commission_witness :
    (calculateCommission "rep" "name" Team.AE scenDDeals [] scenDSettings).dealCommission
        = ((scenDDeals.filter isClosedWon).map
            (termBonusAmount scenDSettings.ae_payment_term_bonuses)).sum
      ∧ (calculateCommission "rep" "name" Team.AE scenDDeals [] scenDSettings).usedBracketPercent
        = none :=
  (C1_ae_commission "rep" "name" scenDDeals [] scenDSettings).2.2.1 scenD_nomatch

/-! Scenario B evaluation. -/

theorem scenB_totalRevenue : totalRevenueOf scenBDeals = 20000 := by
  unfold totalRevenueOf
  rw [show scenBDeals.filter isClosedWon = scenBDeals from by decide]
  norm_num [scenBDeals]

theorem scenB_dealCommission :
    (calculateCommission "rep" "name" Team.SDR scenBDeals scenBMeetings scenBSettings).dealCommission
      = 1000 := by
  show adjustedRevenueOf Team.SDR scenBDeals scenBSettings
      * (scenBSettings.sdr_closed_won_percent / 100) = 1000
  rw [show adjustedRevenueOf Team.SDR scenBDeals scenBSettings = 20000 from by
    unfold adjustedRevenueOf
    rw [scenB_totalRevenue]
    rfl]
  show (20000 : ℚ) * (5 / 100) = 1000
  norm_num

/-- C2: for SDR calls (and Marketing when `marketing_same_as_sdr`), meetings are
grouped into week buckets; each bucket whose count lands in the first matching
tier (first-match order) contributes a `weeklyBreakdown` entry carrying the
week's bonus, `meetingBonus` sums exactly the emitted bonuses, and independently
`dealCommission = adjustedRevenue * sdr_closed_won_percent / 100`; Scenario B
(revenue 20000 at percent 5) gives dealCommission 1000. -/
theorem C2_sdr_commission (repId repName : String) (team : Team) (deals : List Deal)
    (meetings : List Meeting) (s : CommissionSettings)
    (hteam : team = Team.SDR ∨ (team = Team.Marketing ∧ s.marketing_same_as_sdr = true)) :
    (calculateCommission repId repName team deals meetings s).dealCommission
        = adjustedRevenueOf team deals s * (s.sdr_closed_won_percent / 100)
    ∧ (calculateCommission repId repName team deals meetings s).meetingBonus
        = (((calculateCommission repId repName team deals meetings s).weeklyBreakdown).map
            (fun e => e.bonus)).sum
    ∧ (∀ w c, (w, c) ∈ weekBuckets meetings →
        ∀ i (hi : i < s.sdr_meeting_tiers.length),
          tierMatch c (s.sdr_meeting_tiers.get ⟨i, hi⟩) = true →
          (∀ j (hj : j < i),
            tierMatch c (s.sdr_meeting_tiers.get ⟨j, Nat.lt_trans hj hi⟩) = false) →
          WeekEntry.mk w c ((c : ℚ) * (s.sdr_meeting_tiers.get ⟨i, hi⟩).rate_per_meeting)
            ∈ (calculateCommission repId repName team deals meetings s).weeklyBreakdown)
    ∧ (calculateCommission "rep" "name" Team.SDR scenBDeals scenBMeetings scenBSettings).dealCommission
        = 1000 := by
  have hbrk : (calculateCommission repId repName team deals meetings s).weeklyBreakdown
      = weeklyBreakdownOf s.sdr_meeting_tiers meetings := by
    rcases hteam with rfl | ⟨rfl, hsame⟩
    · rfl
    · simp [calculateCommission, hsame]
  have hdc : (calculateCommission repId repName team deals meetings s).dealCommission
      = adjustedRevenueOf team deals s * (s.sdr_closed_won_percent / 100) := by
    rcases hteam with rfl | ⟨rfl, hsame⟩
    · rfl
    · simp [calculateCommission, hsame, adjustedRevenueOf, multTableFor]
  have hmb : (calculateCommission repId repName team deals meetings s).meetingBonus
      = meetingBonusOf s.sdr_meeting_tiers meetings := by
    rcases hteam with rfl | ⟨rfl, hsame⟩
    · rfl
    · simp [calculateCommission, hsame]
  refine ⟨hdc, ?_, ?_, scenB_dealCommission⟩
  · rw [hmb, hbrk]
    rfl
  · intro w c hwc i hi hm hb
    rw [hbrk]
    unfold weeklyBreakdownOf
    refine List.mem_filterMap.mpr ⟨(w, c), hwc, ?_⟩
    unfold weekEntry
    rw [find?_eq_get_of_first _ _ i hi hm hb]
    rfl

/-- Witness for C2: the Scenario B instance, with the branch hypothesis
discharged for the SDR team. -/
theorem C2_sdr_commission_witness :
    (calculateCommission "rep" "name" Team.SDR scenBDeals scenBMeetings scenBSettings).dealCommission
      = 1000 :=
  (C2_sdr_commission "rep" "name" Team.SDR scenBDeals scenBMeetings scenBSettings
    (Or.inl rfl)).2.2.2

/-! Scenario C evaluation. -/

theorem scenC_inbound : inboundRevenueOf scenCDeals = 10000 := by
  unfold inboundRevenueOf
  rw [show (scenCDeals.filter isClosedWon).filter isInbound
        = [Deal.mk 10000 "2024-01-31" "Closed Won" "owner1" (some "Inbound") none] from by decide]
  norm_num [List.sum_cons, List.sum_nil]

theorem scenC_dealCommission :
    (calculateCommission "rep" "name" Team.Marketing scenCDeals [] scenCSettings).dealCommission
      = 300 := by
  show adjustRevenue scenCSettings.marketing_revenue_multiplier_brackets (inboundRevenueOf scenCDeals)
      * (scenCSettings.marketing_inbound_percent / 100) = 300
  rw [scenC_inbound]
  show (10000 : ℚ) * (3 / 100) = 300
  norm_num

/-- C3: for Marketing calls with `marketing_same_as_sdr = false`, the closed-won
deals are restricted to channel "inbound" (case-insensitive exact match), their
amounts sum to `inboundRevenue`, the Marketing multiplier bracket is applied to
`inboundRevenue` itself (not to the Step-2 adjusted revenue), the commission is
`marketing_inbound_percent` of the result, and `meetingBonus = 0`; Scenario C
yields inboundRevenue 10000 and dealCommission 300. -/
theorem C3_marketing_inbound (repId repName : String) (deals : List Deal)
    (meetings : List Meeting) (s : CommissionSettings)
    (hsame : s.marketing_same_as_sdr = false) :
    (calculateCommission repId repName Team.Marketing deals meetings s).meetingBonus = 0
    ∧ (calculateCommission repId repName Team.Marketing deals meetings s).dealCommission
        = adjustRevenue s.marketing_revenue_multiplier_brackets (inboundRevenueOf deals)
          * (s.marketing_inbound_percent / 100)
    ∧ inboundRevenueOf deals
        = (((deals.filter isClosedWon).filter isInbound).map (fun d => d.amount)).sum
    ∧ inboundRevenueOf scenCDeals = 10000
    ∧ (calculateCommission "rep" "name" Team.Marketing scenCDeals [] scenCSettings).dealCommission
        = 300 := by
  refine ⟨?_, ?_, rfl, scenC_inbound, scenC_dealCommission⟩
  · simp [calculateCommission, hsame]
  · simp [calculateCommission, hsame]

/-- Witness for C3: the Scenario C instance, with `marketing_same_as_sdr = false`
discharged by evaluation. -/
theorem C3_marketing_inbound_witness :
    (calculateCommission "rep" "name" Team.Marketing scenCDeals [] scenCSettings).dealCommission
      = 300 :=
  (C3_marketing_inbound "rep" "name" scenCDeals [] scenCSettings rfl).2.2.2.2

/-- C6: the edge engine selects the per-team commission branch by
case-insensitive containment of the team string against "ae", "sdr" and
"marketing" (not exact equality), in AE then SDR then Marketing priority order
when several keywords occur; concretely, the team string "AE/SDR hybrid"
contains both keywords and takes the AE branch, which differs from the SDR
branch on the same inputs. -/
theorem C6_team_dispatch (repId repName team : String) (deals : List EdgeDeal)
    (meetings : List Meeting) (s : EdgeSettings) (startDate endDate : String) :
    (strContainsLower team "ae" = true →
      calculateCommissionEdge repId repName team deals meetings s startDate endDate
        = edgeAEResult repId repName team deals meetings s startDate endDate)
    ∧ (strContainsLower team "ae" = false →
        (strContainsLower team "sdr" = true
          ∨ (strContainsLower team "marketing" = true ∧ s.marketing_same_as_sdr = true)) →
        calculateCommissionEdge repId repName team deals meetings s startDate endDate
          = edgeSDRResult repId repName team deals meetings s startDate endDate)
    ∧ (strContainsLower team "ae" = false → strContainsLower team "sdr" = false →
        strContainsLower team "marketing" = true → s.marketing_same_as_sdr = false →
        calculateCommissionEdge repId repName team deals meetings s startDate endDate
          = edgeMarketingResult repId repName team deals meetings s startDate endDate)
    ∧ calculateCommissionEdge "rep" "name" "AE/SDR hybrid" edge6Deals c6Meetings edge6Settings
          "start" "end"
        = edgeAEResult "rep" "name" "AE/SDR hybrid" edge6Deals c6Meetings edge6Settings
          "start" "end"
    ∧ edgeAEResult "rep" "name" "AE/SDR hybrid" edge6Deals c6Meetings edge6Settings "start" "end"
        ≠ edgeSDRResult "rep" "name" "AE/SDR hybrid" edge6Deals c6Meetings edge6Settings
          "start" "end" := by
  refine ⟨?_, ?_, ?_, rfl, ?_⟩
  · intro hae
    simp [calculateCommissionEdge, edgeIsAE, hae]
  · intro hae hsdr
    rcases hsdr with h | ⟨h1, h2⟩
    · simp [calculateCommissionEdge, edgeIsAE, edgeIsSDR, hae, h]
    · simp [calculateCommissionEdge, edgeIsAE, edgeIsSDR, edgeIsMarketing, hae, h1, h2]
  · intro hae hsdr hmkt hsame
    simp [calculateCommissionEdge, edgeIsAE, edgeIsSDR, edgeIsMarketing, hae, hsdr, hmkt, hsame]
  · intro h
    have h2 := congrArg EdgeResult.weeklyBreakdown h
    revert h2
    decide

/-- Witness for C6: the containment test fires for the non-exact team string
"Senior AE - EMEA", which takes the AE branch. -/
theorem C6_team_dispatch_witness :
    calculateCommissionEdge "rep" "name" "Senior AE - EMEA" edge6Deals c6Meetings edge6Settings
        "start" "end"
      = edgeAEResult "rep" "name" "Senior AE - EMEA" edge6Deals c6Meetings edge6Settings
        "start" "end" :=
  (C6_team_dispatch "rep" "name" "Senior AE - EMEA" edge6Deals c6Meetings edge6Settings
    "start" "end").1 (by decide)

/-- C7 counterexample: with an empty tier table the single meeting's week bucket
matches no tier, no breakdown entry is emitted, and the breakdown undercounts
`totalMeetings` (0 against 1), refuting the round-trip claim as stated. -/
theorem C7_counterexample :
    ((calculateCommission "rep" "name" Team.SDR [] c7Meetings c7Settings).weeklyBreakdown.map
        (fun e => e.meetings)).sum
      ≠ (calculateCommission "rep" "name" Team.SDR [] c7Meetings c7Settings).totalMeetings := by
  decide

/-- C7 (amended): every meeting lands in exactly one week bucket (the bucket
keys are duplicate-free, cover every meeting's week, and each bucket counts
exactly its week's meetings); and provided every bucket's count matches some
tier, the breakdown's meeting counts sum to `totalMeetings`.  Weeks matching no
tier are silently dropped from the breakdown. -/
theorem C7_week_partition (repId repName : String) (team : Team) (deals : List Deal)
    (meetings : List Meeting) (s : CommissionSettings)
    (hteam : team = Team.SDR ∨ (team = Team.Marketing ∧ s.marketing_same_as_sdr = true))
    (hcover : ∀ wc ∈ weekBuckets meetings,
      ((s.sdr_meeting_tiers.find? (tierMatch wc.2)).isSome : Bool) = true) :
    ((weekBuckets meetings).map Prod.fst).Nodup
    ∧ (∀ m ∈ meetings, weekOf m ∈ (weekBuckets meetings).map Prod.fst)
    ∧ (∀ wc ∈ weekBuckets meetings,
        wc.2 = (meetings.filter (fun m => decide (weekOf m = wc.1))).length)
    ∧ ((calculateCommission repId repName team deals meetings s).weeklyBreakdown.map
          (fun e => e.meetings)).sum
        = (calculateCommission repId repName team deals meetings s).totalMeetings := by
  have hbrk : (calculateCommission repId repName team deals meetings s).weeklyBreakdown
      = weeklyBreakdownOf s.sdr_meeting_tiers meetings := by
    rcases hteam with rfl | ⟨rfl, hsame⟩
    · rfl
    · simp [calculateCommission, hsame]
  have htm : (calculateCommission repId repName team deals meetings s).totalMeetings
      = meetings.length := by
    rcases hteam with rfl | ⟨rfl, hsame⟩
    · rfl
    · simp [calculateCommission, hsame]
  refine ⟨?_, ?_, ?_, ?_⟩
  · rw [weekBuckets_fst]
    exact weekKeys_nodup meetings
  · intro m hm
    rw [weekBuckets_fst]
    exact mem_weekKeys.mpr (List.mem_map_of_mem _ hm)
  · intro wc hwc
    unfold weekBuckets at hwc
    obtain ⟨w, hw, he⟩ := List.mem_map.mp hwc
    rw [← he]
  · rw [hbrk, htm]
    unfold weeklyBreakdownOf
    rw [filterMap_weekEntry_meetings s.sdr_meeting_tiers (weekBuckets meetings) hcover]
    exact weekBuckets_snd_sum meetings

/-- Witness for C7: the Scenario B meetings (3 in week 1, 6 in week 2) with
tiers covering both counts partition fully, so the breakdown sums to the
meeting total. -/
theorem C7_week_partition_witness :
    ((calculateCommission "rep" "name" Team.SDR scenBDeals scenBMeetings
          scenBSettings).weeklyBreakdown.map (fun e => e.meetings)).sum
      = (calculateCommission "rep" "name" Team.SDR scenBDeals scenBMeetings
          scenBSettings).totalMeetings :=
  (C7_week_partition "rep" "name" Team.SDR scenBDeals scenBMeetings scenBSettings
    (Or.inl rfl) (by decide)).2.2.2

/-! C8 counterexample evaluations. -/

theorem c8_adjLow : adjustedRevenueOf Team.AE c8DealLow c8Settings = 1500 := by
  unfold adjustedRevenueOf
  rw [show totalRevenueOf c8DealLow = 1500 from by
    unfold totalRevenueOf
    rw [show c8DealLow.filter isClosedWon = c8DealLow from by decide]
    norm_num [c8DealLow]]
  rfl

theorem c8_adjHigh : adjustedRevenueOf Team.AE c8DealHigh c8Settings = 3000 := by
  unfold adjustedRevenueOf
  rw [show totalRevenueOf c8DealHigh = 3000 from by
    unfold totalRevenueOf
    rw [show c8DealHigh.filter isClosedWon = c8DealHigh from by decide]
    norm_num [c8DealHigh]]
  rfl

theorem c8_dcLow :
    (calculateCommission "rep" "name" Team.AE c8DealLow [] c8Settings).dealCommission = 75 := by
  show aeBracketPart c8Settings.ae_brackets (adjustedRevenueOf Team.AE c8DealLow c8Settings)
      + ((c8DealLow.filter isClosedWon).map
          (termBonusAmount c8Settings.ae_payment_term_bonuses)).sum = 75
  rw [c8_adjLow]
  rw [aeBracketPart_eq_of_find _ _ _ (by
    show List.find? (aeMatch 1500) [AeBracket.mk 1000 (some 2000) 5]
        = some (AeBracket.mk 1000 (some 2000) 5)
    rw [List.find?_cons_of_pos _ (by decide)])]
  rw [show (c8DealLow.filter isClosedWon).map (termBonusAmount c8Settings.ae_payment_term_bonuses)
        = [(0 : ℚ)] from rfl]
  norm_num [List.sum_cons, List.sum_nil]

theorem c8_dcHigh :
    (calculateCommission "rep" "name" Team.AE c8DealHigh [] c8Settings).dealCommission = 0 := by
  show aeBracketPart c8Settings.ae_brackets (adjustedRevenueOf Team.AE c8DealHigh c8Settings)
      + ((c8DealHigh.filter isClosedWon).map
          (termBonusAmount c8Settings.ae_payment_term_bonuses)).sum = 0
  rw [c8_adjHigh]
  rw [aeBracketPart_eq_zero_of_none _ _ (by
    show List.find? (aeMatch 3000) [AeBracket.mk 1000 (some 2000) 5] = none
    rw [List.find?_cons_of_neg _ (by decide)]
    rfl)]
  rw [show (c8DealHigh.filter isClosedWon).map (termBonusAmount c8Settings.ae_payment_term_bonuses)
        = [(0 : ℚ)] from rfl]
  norm_num [List.sum_cons, List.sum_nil]

/-- C8 counterexample: the single bracket [1000, 2000) at 5 percent has
(trivially) non-decreasing, non-negative percents, yet raising the adjusted
revenue from 1500 to 3000 (past the bracket's top) drops the AE deal commission
from 75 to 0 — the claim fails as stated because bracket gaps defeat
monotonicity. -/
theorem C8_counterexample :
    percentsMono c8Brackets = true
    ∧ percentsNonneg c8Brackets = true
    ∧ adjustedRevenueOf Team.AE c8DealLow c8Settings
        ≤ adjustedRevenueOf Team.AE c8DealHigh c8Settings
    ∧ ¬ ((calculateCommission "rep" "name" Team.AE c8DealLow [] c8Settings).dealCommission
          ≤ (calculateCommission "rep" "name" Team.AE c8DealHigh [] c8Settings).dealCommission) := by
  refine ⟨by decide, by decide, ?_, ?_⟩
  · rw [c8_adjLow, c8_adjHigh]
    norm_num
  · rw [c8_dcLow, c8_dcHigh]
    norm_num

/-- C8 (amended): first-match bracket lookup is monotone once the caller
obligations hold — the table tiles `[m, ∞)` contiguously in ascending order
(last bracket unbounded), with non-negative, non-decreasing percents and
`0 ≤ m`: then increasing the adjusted revenue never decreases the
bracket-derived AE deal commission. -/
theorem C8_bracket_monotone (bs : List AeBracket) (m r1 r2 : ℚ)
    (hchain : contigChain m bs = true) (hmono : percentsMono bs = true)
    (hnn : percentsNonneg bs = true) (hm : 0 ≤ m) (h12 : r1 ≤ r2) :
    aeBracketPart bs r1 ≤ aeBracketPart bs r2 := by
  by_cases h1 : r1 < m
  · rw [aeBracketPart_eq_zero_of_none bs r1 (contigChain_find_none r1 m bs hchain h1)]
    by_cases h2 : r2 < m
    · rw [aeBracketPart_eq_zero_of_none bs r2 (contigChain_find_none r2 m bs hchain h2)]
    · obtain ⟨b2, hf2⟩ := contigChain_find_some r2 m bs hchain (not_lt.mp h2)
      rw [aeBracketPart_eq_of_find bs r2 b2 hf2]
      have hp2 : 0 ≤ b2.percent := percentsNonneg_mem hnn (List.mem_of_find?_eq_some hf2)
      have hr2 : 0 ≤ r2 := le_trans hm (not_lt.mp h2)
      have : (0 : ℚ) ≤ b2.percent / 100 := by linarith
      exact mul_nonneg hr2 this
  · have hm1 : m ≤ r1 := not_lt.mp h1
    obtain ⟨b1, hf1⟩ := contigChain_find_some r1 m bs hchain hm1
    obtain ⟨b2, hf2⟩ := contigChain_find_some r2 m bs hchain (le_trans hm1 h12)
    rw [aeBracketPart_eq_of_find bs r1 b1 hf1, aeBracketPart_eq_of_find bs r2 b2 hf2]
    have hp12 : b1.percent ≤ b2.percent :=
      contigChain_percent_mono r1 r2 m bs hchain hmono hm1 h12 b1 b2 hf1 hf2
    have hp1 : 0 ≤ b1.percent := percentsNonneg_mem hnn (List.mem_of_find?_eq_some hf1)
    have hr1 : 0 ≤ r1 := le_trans hm hm1
    exact mul_le_mul h12 (by linarith) (by linarith) (by linarith)

/-- Witness for C8: on the contiguous two-bracket table (5 percent below 50000,
7.5 percent above) the commission at revenue 1000 is bounded by the commission
at revenue 60000. -/
theorem C8_bracket_monotone_witness :
    aeBracketPart w8Brackets 1000 ≤ aeBracketPart w8Brackets 60000 :=
  C8_bracket_monotone w8Brackets 0 1000 60000 (by decide)
    (by
      rw [show percentsMono w8Brackets = (decide ((5 : ℚ) ≤ 15 / 2) && true) from rfl]
      norm_num)
    (by
      rw [show percentsNonneg w8Brackets
          = (decide ((0 : ℚ) ≤ 5) && (decide ((0 : ℚ) ≤ 15 / 2) && true)) from rfl]
      norm_num)
    (by decide) (by decide)

/-- C9 counterexample: with `ae_brackets` absent an AE computation surfaces the
generic JavaScript `TypeError` (reading `.find` of `undefined`), not the
distinct `MissingRuleTable` error kind the claim requires. -/
theorem C9_counterexample :
    calculateCommissionE Team.AE [] [] s9missing = Except.error EngineError.typeError
    ∧ calculateCommissionE Team.AE [] [] s9missing
        ≠ Except.error EngineError.missingRuleTable := by
  refine ⟨rfl, ?_⟩
  intro h
  rw [show calculateCommissionE Team.AE [] [] s9missing
      = (Except.error EngineError.typeError : Except EngineError CommissionResultE) from rfl] at h
  exact EngineError.noConfusion (Except.error.inj h)

/-- The SDR-rules body of the dynamic engine never produces the distinct
`MissingRuleTable` error: its only failure is the generic `TypeError`. -/
theorem sdrBodyE_no_missing (s : SettingsE) (ms : List Meeting) (tr adj : ℚ) :
    sdrBodyE s ms tr adj ≠ Except.error EngineError.missingRuleTable := by
  intro h
  unfold sdrBodyE at h
  cases htl : s.sdr_meeting_tiers with
  | none => cases hie : ms.isEmpty <;> simp [htl, hie] at h
  | some tiers => simp [htl] at h

/-- The dynamic engine never produces the distinct `MissingRuleTable` error on
any input: every failure is the generic `TypeError`. -/
theorem calculateCommissionE_no_missing (team : Team) (deals : List DealE)
    (meetings : List Meeting) (s : SettingsE) :
    calculateCommissionE team deals meetings s ≠ Except.error EngineError.missingRuleTable := by
  intro h
  cases team with
  | AE =>
    unfold calculateCommissionE at h
    cases hbs : s.ae_brackets with
    | none => simp [hbs] at h
    | some bs =>
      cases hpb : s.ae_payment_term_bonuses with
      | none =>
        cases hany : (deals.filter dealEIsClosedWon).any dealEHasTerm <;>
          simp [hbs, hpb, hany] at h
      | some bonuses => simp [hbs, hpb] at h
  | SDR =>
    unfold calculateCommissionE at h
    exact sdrBodyE_no_missing s meetings _ _ h
  | Marketing =>
    unfold calculateCommissionE at h
    cases hsame : s.marketing_same_as_sdr with
    | true =>
      rw [hsame] at h
      exact sdrBodyE_no_missing s meetings _ _ (by simpa using h)
    | false => simp [hsame] at h

/-- C9 (amended): the engine never throws on a single bad record — with the
rule tables present every call returns a result whose `totalRevenue` treats a
malformed amount as zero — but the bad amount is *not* zero in every
computation: a closed-won deal with a malformed amount and a matching payment
term poisons `dealCommission` to NaN; and a missing required table surfaces as
a generic `TypeError`, never as a distinct `MissingRuleTable` error kind. -/
theorem C9_failure_semantics (team : Team) (deals : List DealE) (meetings : List Meeting)
    (s : SettingsE) (bs : List AeBracket) (bl : List TermBonus) (tl : List MeetingTier)
    (hbs : s.ae_brackets = some bs) (hbl : s.ae_payment_term_bonuses = some bl)
    (htl : s.sdr_meeting_tiers = some tl) :
    (∃ r, calculateCommissionE team deals meetings s = Except.ok r
        ∧ r.totalRevenue = ((deals.filter dealEIsClosedWon).map (fun d => d.amount.getD 0)).sum)
    ∧ (∀ (team2 : Team) (deals2 : List DealE) (meetings2 : List Meeting) (s2 : SettingsE),
        calculateCommissionE team2 deals2 meetings2 s2
          ≠ Except.error EngineError.missingRuleTable)
    ∧ (∃ r9, calculateCommissionE Team.AE [d9bad] [] s9ok = Except.ok r9
        ∧ r9.totalRevenue = 0 ∧ r9.dealCommission = none ∧ r9.totalCommission = none) := by
  refine ⟨?_, calculateCommissionE_no_missing, ?_⟩
  · cases team with
    | AE =>
      simp only [calculateCommissionE, hbs, hbl]
      exact ⟨_, rfl, rfl⟩
    | SDR =>
      simp only [calculateCommissionE, sdrBodyE, htl]
      exact ⟨_, rfl, rfl⟩
    | Marketing =>
      cases hsame : s.marketing_same_as_sdr with
      | true =>
        simp only [calculateCommissionE, sdrBodyE, htl, hsame, if_true]
        exact ⟨_, rfl, rfl⟩
      | false =>
        simp only [calculateCommissionE, hsame, if_false]
        exact ⟨_, rfl, rfl⟩
  · refine ⟨_, rfl, ?_, rfl, rfl⟩
    show (0 : ℚ) + 0 = 0
    norm_num

/-- Witness for C9: with every table present (settings `s9ok`), the amended
theorem applies, and in particular no input ever yields the distinct
`MissingRuleTable` kind — not even the missing-table settings. -/
theorem C9_failure_semantics_witness :
    calculateCommissionE Team.AE [] [] s9missing
      ≠ Except.error EngineError.missingRuleTable :=
  (C9_failure_semantics Team.SDR [] [] s9ok [AeBracket.mk 0 none 5]
    [TermBonus.mk "6 months" 2] [] rfl rfl rfl).2.1 Team.AE [] [] s9missing
